import Mathlib

/-- Transaction lifecycle operations invoked on a typeorm query runner by the
wrapper in `src/src/database/common/decorators.ts` and by the `transaction`
helper in `src/unnamed/part_001`. -/
inductive TxEvent where
  | connect
  | startTransaction
  | commitTransaction
  | rollbackTransaction
  | release
  deriving DecidableEq

deriving instance DecidableEq for Except

/-- Outcome parameters of one wrapped invocation that opens a scope: the
result of the wrapped unit of work, and whether `commitTransaction` and
`rollbackTransaction` fail when invoked. Errors and values are coded as
naturals so that replacement of one error by another is observable.
`connect` and `startTransaction` are taken to succeed (the claims below
quantify over executions in which the scope opens), and `release` is
modelled as unconditional resource return, following the spec's error
taxonomy which never makes release fail. -/
structure RunBehavior where
  bodyResult : Except Nat Nat
  commitErr : Option Nat
  rollbackErr : Option Nat
  deriving DecidableEq

/-- Embedding of the try/catch/finally body shared by the `Transactional`
decorator wrapper (decorators.ts, lines 26-48) and the `transaction` helper
(part_001, lines 9-34): connect, start the transaction, run the unit of
work under the binding, commit on success, rollback inside the catch block,
release inside the finally block. JavaScript semantics are kept faithfully:
if `await queryRunner.rollbackTransaction()` rejects inside the catch
block, its error propagates in place of the caught one and the trailing
`throw error` statement is never reached; the finally block still runs.
Returns the trace of lifecycle operations that were invoked, paired with
what the caller observes. -/
def transaction (b : RunBehavior) : List TxEvent × Except Nat Nat :=
  match b.bodyResult with
  | Except.ok v =>
    match b.commitErr with
    | none =>
      ([TxEvent.connect, TxEvent.startTransaction, TxEvent.commitTransaction,
        TxEvent.release], Except.ok v)
    | some ce =>
      match b.rollbackErr with
      | none =>
        ([TxEvent.connect, TxEvent.startTransaction, TxEvent.commitTransaction,
          TxEvent.rollbackTransaction, TxEvent.release], Except.error ce)
      | some re =>
        ([TxEvent.connect, TxEvent.startTransaction, TxEvent.commitTransaction,
          TxEvent.rollbackTransaction, TxEvent.release], Except.error re)
  | Except.error e =>
    match b.rollbackErr with
    | none =>
      ([TxEvent.connect, TxEvent.startTransaction, TxEvent.rollbackTransaction,
        TxEvent.release], Except.error e)
    | some re =>
      ([TxEvent.connect, TxEvent.startTransaction, TxEvent.rollbackTransaction,
        TxEvent.release], Except.error re)

/-- Association-list lookup modelling reading a key of a JavaScript object
or of a `Map`: the first (most recent) binding for the key wins. -/
def lookupKey {α : Type} : List (String × α) → String → Option α
  | [], _ => none
  | (k, v) :: rest, key => if k = key then some v else lookupKey rest key

/-- Removal of every binding for a key, modelling `Map.set` replacement and
`cache.del`. -/
def dropKey {α : Type} : List (String × α) → String → List (String × α)
  | [], _ => []
  | (k, v) :: rest, key =>
    if k = key then dropKey rest key else (k, v) :: dropKey rest key

/-- The store type placed into the async local storage: a mapping from
connection name to the query executor (entity manager), here identified by
the numeric id of the query runner that owns it
(`src/src/database/types`, IAsyncLocalStore). -/
abbrev IAsyncLocalStore := List (String × Nat)

/-- Executor resolution performed by `TransactionalRepository` and
`getEntityManager` (transactional.repository.ts): if the async local
storage holds a store and that store has an entry for the connection name,
use that transactional executor, otherwise fall back to the data source's
default manager (modelled as `none`). -/
def resolveExecutor (store : Option IAsyncLocalStore) (conn : String) :
    Option Nat :=
  match store with
  | some s => lookupKey s conn
  | none => none

/-- Programs composed of repository queries and wrapped (decorated) calls,
used to model nested invocations of the `Transactional` wrapper. -/
inductive Prog where
  | query (conn : String)
  | wrapped (conn : String) (body : Prog)
  | andThen (p q : Prog)

/-- Observable events of a program run: a transaction started on a fresh
query runner, a query executed under a resolved executor (`none` meaning
the default non-transactional manager), a commit, and a release. -/
inductive ScopeEv where
  | startTx (runner : Nat)
  | execQuery (conn : String) (runner : Option Nat)
  | commitTx (runner : Nat)
  | releaseTx (runner : Nat)
  deriving DecidableEq

/-- Happy-path execution of a program, faithful to decorators.ts lines
26-48: a wrapped call ALWAYS creates a fresh query runner (numbered by the
counter `n`) and starts a transaction on it — the wrapper never consults
the current ambient store before opening the scope — and then runs its body
with the ambient store replaced by exactly the fresh singleton object
`[(conn, n)]`, as built on lines 32-34 and passed to
`asyncLocalStorage.run`. A query resolves its executor from the ambient
store as the repository does. Error paths of the wrapper are modelled
separately by `transaction`. -/
def runProg : Prog → Option IAsyncLocalStore → Nat → List ScopeEv × Nat
  | Prog.query conn, store, n =>
    ([ScopeEv.execQuery conn (resolveExecutor store conn)], n)
  | Prog.wrapped conn body, _store, n =>
    let inner := runProg body (some [(conn, n)]) (n + 1)
    (ScopeEv.startTx n :: inner.1 ++ [ScopeEv.commitTx n, ScopeEv.releaseTx n],
      inner.2)
  | Prog.andThen p q, store, n =>
    let r1 := runProg p store n
    let r2 := runProg q store r1.2
    (r1.1 ++ r2.1, r2.2)

/-- Test for a transaction-start event. -/
def isStartTx : ScopeEv → Bool
  | ScopeEv.startTx _ => true
  | _ => false

/-- Number of wrapped (decorated) calls occurring in a program. -/
def wrappedCount : Prog → Nat
  | Prog.query _ => 0
  | Prog.wrapped _ body => wrappedCount body + 1
  | Prog.andThen p q => wrappedCount p + wrappedCount q

/-- Modelled from the spec: the `asyncLocalStorage` instance itself comes
from the node builtin `async_hooks` module (only instantiated in
`src/src/database/common/async-local-storage.ts`), so its propagation
semantics is not code under src/. Per spec sections 4.2 and 5, the global
state is modelled as one store stack per logical call chain, driven by a
single-threaded scheduler that interleaves operations of different
chains. -/
abbrev AlsGlobal := Nat → List IAsyncLocalStore

/-- One scheduler-observable operation on the async local storage: a chain
enters `run` with a new store, or exits its innermost `run`. Callbacks
scheduled from within a chain carry that chain's id. -/
inductive AlsOp where
  | enterRun (chain : Nat) (store : IAsyncLocalStore)
  | exitRun (chain : Nat)

/-- The chain performing an operation. -/
def alsOpChain : AlsOp → Nat
  | AlsOp.enterRun c _ => c
  | AlsOp.exitRun c => c

/-- Modelled from the spec: effect of one operation — `run` pushes the new
store for the extent of the callback on the performing chain's own stack
only, and restores (pops) it on exit; no other chain's stack is touched. -/
def alsStep (g : AlsGlobal) : AlsOp → AlsGlobal
  | AlsOp.enterRun c s => fun c2 => if c2 = c then s :: g c else g c2
  | AlsOp.exitRun c => fun c2 => if c2 = c then (g c).tail else g c2

/-- Execution of an interleaved schedule of storage operations. -/
def alsExec (g : AlsGlobal) : List AlsOp → AlsGlobal
  | [] => g
  | op :: ops => alsExec (alsStep g op) ops

/-- What `asyncLocalStorage.getStore()` returns on a given chain: the
innermost store bound by an in-flight `run`, if any. -/
def alsGetStore (g : AlsGlobal) (c : Nat) : Option IAsyncLocalStore :=
  (g c).head?

/-- Cached wrapper object built by `CacheStorage.set`
(src/unnamed/part_006, lines 24-42): the payload together with the `once`
flag, which the source leaves undefined when the caller omits it. The
payload is an `Option Nat` so that caching a null entity is
representable; row objects are otherwise truthy. -/
structure CacheWrapper where
  value : Option Nat
  once : Option Bool
  deriving DecidableEq

/-- State of the cache-manager memory store: key, wrapper, and the
absolute expiry instant (set time plus ttl, in milliseconds). -/
abbrev CacheState := List (String × (CacheWrapper × Nat))

/-- Default ttl used by `CacheStorage` when the caller gives none. -/
def DEFAULT_TTL : Nat := 100000

/-- The underlying `cache.get` of the cache-manager memory store: the
stored wrapper while the entry's ttl has not lapsed, and nothing once it
is stale (the store treats an entry as stale when its age strictly
exceeds its ttl). -/
def memoryCacheGet (s : CacheState) (key : String) (now : Nat) :
    Option CacheWrapper :=
  match lookupKey s key with
  | some (w, expiry) => if now ≤ expiry then some w else none
  | none => none

/-- Embedding of `CacheStorage.get` (part_006, lines 12-22): read the
wrapper from the memory cache; when a wrapper was found and its `once`
flag is strictly `true`, delete the key as part of the same read; return
the wrapper's payload (nothing when no live wrapper exists). Returns the
value delivered to the caller together with the cache state after the
read. Both cache operations are total functions: no input makes them
fail. -/
def CacheStorage.get (s : CacheState) (key : String) (now : Nat) :
    Option Nat × CacheState :=
  match memoryCacheGet s key now with
  | some w => (w.value, if w.once = some true then dropKey s key else s)
  | none => (none, s)

/-- Embedding of `CacheStorage.set` (part_006, lines 24-42): wrap the
value with the caller's `once` flag and store it under the key with
absolute expiry `now` plus the given ttl, the default ttl standing in when
none is given; setting a key replaces any previous entry for it. -/
def CacheStorage.set (s : CacheState) (key : String) (v : Option Nat)
    (ttl : Option Nat) (once : Option Bool) (now : Nat) : CacheState :=
  (key, (CacheWrapper.mk v once, now + ttl.getD DEFAULT_TTL)) :: dropKey s key

/-- Cache options accepted by `findOneByPK`
(transactional.repository.ts, lines 128-157). -/
structure CacheOptions where
  once : Option Bool
  ttl : Option Nat
  deriving DecidableEq

/-- Observable side effects of one `findOneByPK` call. -/
inductive RepoEffect where
  | cacheGet (key : String)
  | dbQuery
  | cacheSet (key : String) (ttl : Option Nat) (once : Option Bool)
  deriving DecidableEq

/-- Embedding of `TransactionalRepository.findOneByPK`
(transactional.repository.ts, lines 128-157): build the cache key
`<entityName>-<id>`, read the cache unconditionally, and if the cached
entity is absent (or null), run the primary-key query (its result is the
`dbRow` parameter) and, only when `cacheOptions` was supplied, store the
query result under the key with the supplied ttl and once flag. Returns
the entity handed back to the caller, the cache state after the call, and
the trace of effects. -/
def findOneByPK (entityName : String) (id : Nat)
    (cacheOptions : Option CacheOptions) (cache : CacheState)
    (dbRow : Option Nat) (now : Nat) :
    Option Nat × CacheState × List RepoEffect :=
  let cacheKey := entityName ++ "-" ++ toString id
  let g := CacheStorage.get cache cacheKey now
  match g.1 with
  | some e => (some e, g.2, [RepoEffect.cacheGet cacheKey])
  | none =>
    match cacheOptions with
    | some opts =>
      (dbRow, CacheStorage.set g.2 cacheKey dbRow opts.ttl opts.once now,
        [RepoEffect.cacheGet cacheKey, RepoEffect.dbQuery,
         RepoEffect.cacheSet cacheKey opts.ttl opts.once])
    | none =>
      (dbRow, g.2, [RepoEffect.cacheGet cacheKey, RepoEffect.dbQuery])

/-- The reserved default connection name (part_006, line 4). -/
def DEFAULT_DATASOURCE_NAME : String := "default"

/-- Message built by `UnknownConnectionException`
(src/src/database/transaction.interceptor.ts companion file, lines 62-70):
the reserved default name gets a distinct message from any other name. -/
def unknownConnectionMessage (connectionName : String) : String :=
  if connectionName = DEFAULT_DATASOURCE_NAME then
    "Default connection not found"
  else
    "Unknown connection: " ++ connectionName

/-- The process-wide registry mapping connection names to data source
handles (handles coded as naturals). -/
abbrev DataSourceStore := List (String × Nat)

/-- Embedding of `DataSourceStorage.getDataSource` (part_006, lines
50-64): the stored handle when the name is registered, otherwise an
`UnknownConnectionException` carrying `unknownConnectionMessage`. -/
def DataSourceStorage.getDataSource (s : DataSourceStore) (name : String) :
    Except String Nat :=
  match lookupKey s name with
  | some ds => Except.ok ds
  | none => Except.error (unknownConnectionMessage name)

/-- Embedding of `DataSourceStorage.setDataSource`: `Map.set` semantics,
replacing any existing entry for the name. -/
def DataSourceStorage.setDataSource (s : DataSourceStore) (name : String)
    (ds : Nat) : DataSourceStore :=
  (name, ds) :: dropKey s name

/-- Outcome of applying the `Transactional` decorator to a method. -/
inductive DecorationOutcome where
  | envTypeError
  | applied (wrapped : Bool)
  deriving DecidableEq

/-- Embedding of the decoration-time behavior of `Transactional`
(decorators.ts, lines 20-52). `nodeEnv` is the value of
`process.env.NODE_ENV` at the moment the decorator is applied to the
method: when the variable is unset, evaluating
`process.env.NODE_ENV.toUpperCase()` raises a TypeError at decoration
time; otherwise the descriptor's method is replaced by the transactional
wrapper exactly when the upper-cased value differs from TEST, and this
decision is taken once, at decoration time. -/
def Transactional (nodeEnv : Option String) : DecorationOutcome :=
  match nodeEnv with
  | none => DecorationOutcome.envTypeError
  | some e => DecorationOutcome.applied (e.toUpper != "TEST")

/-- Invocation of the descriptor produced at decoration time: when the
method was wrapped, the wrapper body runs; otherwise the original method
runs with no lifecycle operations. The wrapper body in decorators.ts
contains no read of the environment, so the invocation-time value of
NODE_ENV is an ignored parameter. -/
def invokeDescriptor (wrapped : Bool) (b : RunBehavior)
    (_laterNodeEnv : Option String) : List TxEvent × Except Nat Nat :=
  if wrapped then transaction b else ([], b.bodyResult)

/-- Test for a successful unit-of-work result. -/
def exceptIsOk : Except Nat Nat → Bool
  | Except.ok _ => true
  | Except.error _ => false

/-- C4: the claim states that when both the wrapped unit of work and the
subsequent rollback fail, the caller observes the original unit-of-work
error. In the code the rejection of `rollbackTransaction()` inside the
catch block propagates before `throw error` is reached, so at body error 1
and rollback error 2 the caller observes error 2, not error 1. -/
theorem claim_C4_counterexample :
    (transaction (RunBehavior.mk (Except.error 1) none (some 2))).2 =
      Except.error 2
    ∧ (transaction (RunBehavior.mk (Except.error 1) none (some 2))).2 ≠
      Except.error 1 := by
  decide

/-- C4 (amended): if the wrapped unit of work fails and the subsequent
rollback also fails, the rollback error replaces the original error: the
caller observes the rollback error. -/
theorem claim_C4_amended (b : RunBehavior) (e0 re : Nat)
    (hbody : b.bodyResult = Except.error e0)
    (hrb : b.rollbackErr = some re) :
    (transaction b).2 = Except.error re := by
  obtain ⟨body, ce, rb⟩ := b
  simp only at hbody hrb
  subst hbody
  subst hrb
  cases ce <;> simp [transaction]

/-- C4 witness: the amended statement applied at body error 1, rollback
error 2. -/
theorem claim_C4_witness :
    (RunBehavior.mk (Except.error 1) none (some 2)).bodyResult =
      Except.error 1
    ∧ (RunBehavior.mk (Except.error 1) none (some 2)).rollbackErr = some 2
    ∧ (transaction (RunBehavior.mk (Except.error 1) none (some 2))).2 =
      Except.error 2 :=
  ⟨rfl, rfl,
    claim_C4_amended (RunBehavior.mk (Except.error 1) none (some 2)) 1 2
      rfl rfl⟩

/-- C5: the claim states that commit and rollback are never both invoked
on the same scope, naming the commit-error path as one of the covered
exit paths. On that very path the code invokes `commitTransaction` (which
fails) and then invokes `rollbackTransaction` from the catch block, so
both lifecycle operations are invoked on one scope. -/
theorem claim_C5_counterexample :
    TxEvent.commitTransaction ∈
      (transaction (RunBehavior.mk (Except.ok 0) (some 1) none)).1
    ∧ TxEvent.rollbackTransaction ∈
      (transaction (RunBehavior.mk (Except.ok 0) (some 1) none)).1 := by
  decide

/-- C5 (amended): on every exit path release is invoked exactly once and
is the last lifecycle operation, and rollback never follows a successful
commit; commit and rollback are both invoked exactly when the unit of
work succeeds and commit then fails, rollback running in the catch block
after the failed commit. -/
theorem claim_C5_amended (b : RunBehavior) :
    (transaction b).1.count TxEvent.release = 1
    ∧ (transaction b).1.getLast? = some TxEvent.release
    ∧ ((TxEvent.commitTransaction ∈ (transaction b).1
        ∧ TxEvent.rollbackTransaction ∈ (transaction b).1) ↔
      (exceptIsOk b.bodyResult = true ∧ b.commitErr.isSome = true)) := by
  obtain ⟨body, ce, rb⟩ := b
  cases body <;> cases ce <;> cases rb <;>
    simp only [transaction, exceptIsOk, Option.isSome_some,
      Option.isSome_none] <;>
    decide

/-- C6: when the wrapped unit of work throws (and rollback succeeds), the
wrapper rolls back, releases last, and rethrows the same error; when the
unit of work returns but commit throws, the wrapper rolls back, releases
last, and rethrows the commit error — commit failures surface, never
swallowed. -/
theorem claim_C6 (b : RunBehavior) (hrb : b.rollbackErr = none) :
    (∀ e, b.bodyResult = Except.error e →
      transaction b =
        ([TxEvent.connect, TxEvent.startTransaction,
          TxEvent.rollbackTransaction, TxEvent.release], Except.error e))
    ∧ (∀ v ce, b.bodyResult = Except.ok v → b.commitErr = some ce →
      transaction b =
        ([TxEvent.connect, TxEvent.startTransaction,
          TxEvent.commitTransaction, TxEvent.rollbackTransaction,
          TxEvent.release], Except.error ce)) := by
  obtain ⟨body, ce, rb⟩ := b
  simp only at hrb
  subst hrb
  constructor
  · intro e he
    simp only at he
    subst he
    simp [transaction]
  · intro v ce2 hv hce
    simp only at hv hce
    subst hv
    subst hce
    simp [transaction]

/-- C6 witness: the theorem applied at a unit of work failing with error
7 and a rollback that succeeds. -/
theorem claim_C6_witness :
    (RunBehavior.mk (Except.error 7) none none).rollbackErr = none
    ∧ transaction (RunBehavior.mk (Except.error 7) none none) =
      ([TxEvent.connect, TxEvent.startTransaction,
        TxEvent.rollbackTransaction, TxEvent.release], Except.error 7) :=
  ⟨rfl,
    (claim_C6 (RunBehavior.mk (Except.error 7) none none) rfl).1 7 rfl⟩

/-- C10: applying the `Transactional` decorator while NODE_ENV is unset
raises a TypeError at decoration time; when NODE_ENV is set, the method
is wrapped exactly when its upper-cased value differs from TEST, and the
invocation behavior of the resulting descriptor does not depend on the
environment at invocation time — the switch is consulted once, at
decoration time. -/
theorem claim_C10 :
    Transactional none = DecorationOutcome.envTypeError
    ∧ (∀ e, Transactional (some e) =
        DecorationOutcome.applied (e.toUpper != "TEST"))
    ∧ (∀ w b env1 env2,
        invokeDescriptor w b env1 = invokeDescriptor w b env2) :=
  ⟨rfl, fun _ => rfl, fun _ _ _ _ => rfl⟩

/-- C1: the claim states that a wrapped invocation on a connection name
already bound in the ambient store opens no new scope and starts no second
transaction. Running a wrapped call on the default connection nested
inside an outer wrapped call on the same connection, the code starts a
second transaction on a fresh query runner (runner 1), and the inner query
executes on runner 1, not on the outer runner 0. -/
theorem claim_C1_counterexample :
    (runProg
      (Prog.wrapped "default" (Prog.wrapped "default" (Prog.query "default")))
      none 0).1 =
      [ScopeEv.startTx 0, ScopeEv.startTx 1,
       ScopeEv.execQuery "default" (some 1), ScopeEv.commitTx 1,
       ScopeEv.releaseTx 1, ScopeEv.commitTx 0, ScopeEv.releaseTx 0]
    ∧ List.countP isStartTx
        (runProg
          (Prog.wrapped "default"
            (Prog.wrapped "default" (Prog.query "default"))) none 0).1 = 2
    ∧ ¬ List.countP isStartTx
        (runProg
          (Prog.wrapped "default"
            (Prog.wrapped "default" (Prog.query "default"))) none 0).1 = 1
    ∧ ScopeEv.execQuery "default" (some 0) ∉
        (runProg
          (Prog.wrapped "default"
            (Prog.wrapped "default" (Prog.query "default"))) none 0).1 := by
  decide

/-- C1 (amended): every invocation of a wrapped unit of work
unconditionally starts a new transaction on a fresh query runner — the
wrapper never consults the ambient store before opening the scope — so a
run of any program performs exactly one transaction start per wrapped
call, whatever binding is ambient at the call. -/
theorem claim_C1_amended :
    (∀ conn body store n,
      ((runProg (Prog.wrapped conn body) store n).1).head? =
        some (ScopeEv.startTx n))
    ∧ (∀ p store n,
      List.countP isStartTx (runProg p store n).1 = wrappedCount p) := by
  constructor
  · intro conn body store n
    simp [runProg]
  · intro p
    induction p with
    | query conn =>
      intro store n
      simp [runProg, wrappedCount, isStartTx]
    | wrapped conn body ih =>
      intro store n
      simp [runProg, wrappedCount, isStartTx, List.countP_cons,
        List.countP_append, ih]
    | andThen p q ihp ihq =>
      intro store n
      simp [runProg, wrappedCount, List.countP_append, ihp, ihq]

/-- C2: the claim states that for a nested pair of bindings, connection
names bound in the outer binding other than the inner one remain visible
from within the inner extent. In the code the inner
`asyncLocalStorage.run` receives exactly the fresh singleton object built
by the inner wrapper, so inside a wrapped call on connection B nested in a
wrapped call on connection A, a query on A resolves no executor (it falls
back to the default manager) instead of seeing the outer runner 0. -/
theorem claim_C2_counterexample :
    (runProg (Prog.wrapped "A" (Prog.wrapped "B" (Prog.query "A")))
      none 0).1 =
      [ScopeEv.startTx 0, ScopeEv.startTx 1, ScopeEv.execQuery "A" none,
       ScopeEv.commitTx 1, ScopeEv.releaseTx 1, ScopeEv.commitTx 0,
       ScopeEv.releaseTx 0]
    ∧ ScopeEv.execQuery "A" (some 0) ∉
        (runProg (Prog.wrapped "A" (Prog.wrapped "B" (Prog.query "A")))
          none 0).1 := by
  decide

/-- C2 (amended): an inner wrapped call replaces the ambient binding with
exactly its own singleton entry: a query on the inner connection name sees
the inner runner (same-name shadowing holds), while a query on any other
connection name — including one bound by the outer binding — resolves no
executor inside the inner extent, whatever the outer store was. -/
theorem claim_C2_amended (conn conn2 : String) (h : conn2 ≠ conn)
    (store : Option IAsyncLocalStore) (n : Nat) :
    (runProg (Prog.wrapped conn (Prog.query conn)) store n).1 =
      [ScopeEv.startTx n, ScopeEv.execQuery conn (some n),
       ScopeEv.commitTx n, ScopeEv.releaseTx n]
    ∧ (runProg (Prog.wrapped conn (Prog.query conn2)) store n).1 =
      [ScopeEv.startTx n, ScopeEv.execQuery conn2 none,
       ScopeEv.commitTx n, ScopeEv.releaseTx n] := by
  have h2 : conn ≠ conn2 := fun hc => h hc.symm
  constructor
  · simp [runProg, resolveExecutor, lookupKey]
  · simp [runProg, resolveExecutor, lookupKey, h2]

/-- C2 witness: the amended statement applied at inner connection A,
outer-query name B, empty outer store, runner counter 0. -/
theorem claim_C2_witness :
    ("B" : String) ≠ "A"
    ∧ ((runProg (Prog.wrapped "A" (Prog.query "A")) none 0).1 =
        [ScopeEv.startTx 0, ScopeEv.execQuery "A" (some 0),
         ScopeEv.commitTx 0, ScopeEv.releaseTx 0]
      ∧ (runProg (Prog.wrapped "A" (Prog.query "B")) none 0).1 =
        [ScopeEv.startTx 0, ScopeEv.execQuery "B" none,
         ScopeEv.commitTx 0, ScopeEv.releaseTx 0]) :=
  ⟨by decide, claim_C2_amended "A" "B" (by decide) none 0⟩

/-- C3: a binding set inside one call chain is never observable from a
concurrently scheduled different chain: any schedule of storage
operations all performed by chains other than an observer chain leaves
the observer's visible store unchanged. -/
theorem claim_C3 (g : AlsGlobal) (ops : List AlsOp) (c2 : Nat)
    (h : ∀ op ∈ ops, alsOpChain op ≠ c2) :
    alsGetStore (alsExec g ops) c2 = alsGetStore g c2 := by
  revert h
  induction ops generalizing g with
  | nil =>
    intro h
    rfl
  | cons op rest ih =>
    intro h
    have h1 : alsOpChain op ≠ c2 := h op (List.mem_cons_self op rest)
    have hstep : alsStep g op c2 = g c2 := by
      cases op with
      | enterRun c s =>
        simp only [alsOpChain] at h1
        simp only [alsStep]
        rw [if_neg (fun hc => h1 hc.symm)]
      | exitRun c =>
        simp only [alsOpChain] at h1
        simp only [alsStep]
        rw [if_neg (fun hc => h1 hc.symm)]
    have h2 : ∀ op2 ∈ rest, alsOpChain op2 ≠ c2 :=
      fun op2 hm => h op2 (List.mem_cons_of_mem op hm)
    calc alsGetStore (alsExec g (op :: rest)) c2
        = alsGetStore (alsExec (alsStep g op) rest) c2 := rfl
      _ = alsGetStore (alsStep g op) c2 := ih (alsStep g op) h2
      _ = alsGetStore g c2 := by
          unfold alsGetStore
          rw [hstep]

/-- C3 witness: the theorem applied to a schedule in which chain 0 binds
the default connection while chain 1 observes. -/
theorem claim_C3_witness :
    (∀ op ∈ [AlsOp.enterRun 0 [("default", 5)]], alsOpChain op ≠ 1)
    ∧ alsGetStore
        (alsExec (fun _ => []) [AlsOp.enterRun 0 [("default", 5)]]) 1 =
      alsGetStore (fun _ => []) 1 :=
  ⟨by decide,
    claim_C3 (fun _ => []) [AlsOp.enterRun 0 [("default", 5)]] 1
      (by decide)⟩

/-- A key deleted from an association list is no longer found. -/
theorem lookupKey_dropKey {α : Type} (s : List (String × α)) (key : String) :
    lookupKey (dropKey s key) key = none := by
  induction s with
  | nil => rfl
  | cons kv rest ih =>
    obtain ⟨k, v⟩ := kv
    by_cases hk : k = key
    · simp [dropKey, hk, ih]
    · simp [dropKey, lookupKey, hk, ih]

/-- C7: after storing a value with an explicit ttl and once set to true, a
read before the ttl elapses returns the value and deletes the entry as
part of that same read, so any later read of the key (here at an
arbitrary further instant n3) returns nothing; and a read of an entry
stored with any once flag after its absolute expiry has passed returns
nothing. Both operations are total Lean functions on every input, which
is the embedding of the source contract that cache operations never
raise. -/
theorem claim_C7 (s : CacheState) (key : String) (v : Option Nat)
    (ttl t now m n3 : Nat) (once2 : Option Bool)
    (hlive : now < t + ttl) (hexp : t + ttl < m) :
    (CacheStorage.get (CacheStorage.set s key v (some ttl) (some true) t)
      key now).1 = v
    ∧ (CacheStorage.get
        ((CacheStorage.get
          (CacheStorage.set s key v (some ttl) (some true) t) key now).2)
        key n3).1 = none
    ∧ (CacheStorage.get (CacheStorage.set s key v (some ttl) once2 t)
        key m).1 = none := by
  refine ⟨?_, ?_, ?_⟩
  · simp [CacheStorage.set, CacheStorage.get, memoryCacheGet, lookupKey,
      Nat.le_of_lt hlive]
  · simp [CacheStorage.set, CacheStorage.get, memoryCacheGet, lookupKey,
      Nat.le_of_lt hlive, dropKey, lookupKey_dropKey]
  · simp [CacheStorage.set, CacheStorage.get, memoryCacheGet, lookupKey,
      Nat.not_le.mpr hexp]

/-- C7 witness: the theorem applied at ttl 1000 with a read at instant 10
(both reads of the once entry), and at a once-less entry read after its
expiry has passed. -/
theorem claim_C7_witness :
    (10 < 0 + 1000)
    ∧ (0 + 1000 < 1001)
    ∧ ((CacheStorage.get
          (CacheStorage.set [] "k" (some 5) (some 1000) (some true) 0)
          "k" 10).1 = some 5
      ∧ (CacheStorage.get
          ((CacheStorage.get
            (CacheStorage.set [] "k" (some 5) (some 1000) (some true) 0)
            "k" 10).2) "k" 77).1 = none
      ∧ (CacheStorage.get
          (CacheStorage.set [] "k" (some 5) (some 1000) none 0)
          "k" 1001).1 = none) :=
  ⟨by decide, by decide,
    claim_C7 [] "k" (some 5) 1000 0 10 1001 77 none (by decide) (by decide)⟩

/-- C8: the claim states that `findOneByPK` consults the cache only when
cacheOptions is supplied. With no cacheOptions and a live cached entry for
the key, the call still reads the cache: its only effect is the cache
read, and it returns the cached entity 7 instead of the database row 9,
which it never queries. -/
theorem claim_C8_counterexample :
    (findOneByPK "User" 1 none
      [("User-1", (CacheWrapper.mk (some 7) none, 100))] (some 9) 0).2.2 =
      [RepoEffect.cacheGet "User-1"]
    ∧ RepoEffect.cacheGet "User-1" ∈
        (findOneByPK "User" 1 none
          [("User-1", (CacheWrapper.mk (some 7) none, 100))]
          (some 9) 0).2.2
    ∧ RepoEffect.dbQuery ∉
        (findOneByPK "User" 1 none
          [("User-1", (CacheWrapper.mk (some 7) none, 100))]
          (some 9) 0).2.2
    ∧ (findOneByPK "User" 1 none
        [("User-1", (CacheWrapper.mk (some 7) none, 100))]
        (some 9) 0).1 = some 7 := by
  decide

/-- C8 (amended): `findOneByPK` consults the cache under the key
entityName-id unconditionally — its first effect is always the cache
read — while it stores into the cache only when cacheOptions is supplied,
and on a cache miss it returns exactly the primary-key query's row, hence
nothing when no row matches. -/
theorem claim_C8_amended (en : String) (idv : Nat)
    (co : Option CacheOptions) (cache : CacheState) (dbRow : Option Nat)
    (now : Nat) (k2 : String) (t2 : Option Nat) (o2 : Option Bool) :
    (findOneByPK en idv co cache dbRow now).2.2.head? =
      some (RepoEffect.cacheGet (en ++ "-" ++ toString idv))
    ∧ (RepoEffect.cacheSet k2 t2 o2 ∈
        (findOneByPK en idv co cache dbRow now).2.2 → co ≠ none)
    ∧ ((CacheStorage.get cache (en ++ "-" ++ toString idv) now).1 = none →
        (findOneByPK en idv co cache dbRow now).1 = dbRow) := by
  cases hg : (CacheStorage.get cache (en ++ "-" ++ toString idv) now).1 with
  | none =>
    cases co with
    | none => simp [findOneByPK, hg]
    | some opts => simp [findOneByPK, hg]
  | some e =>
    cases co with
    | none => simp [findOneByPK, hg]
    | some opts => simp [findOneByPK, hg]

/-- C8 witness: the amended statement applied on an empty cache, once
without cacheOptions (the miss returns the absent row), and once with
cacheOptions, whose run does write the cache. -/
theorem claim_C8_witness :
    ((CacheStorage.get [] "User-1" 0).1 = none
      ∧ (findOneByPK "User" 1 none [] none 0).1 = none)
    ∧ (RepoEffect.cacheSet "User-1" (some 5000) (some true) ∈
        (findOneByPK "User" 1
          (some (CacheOptions.mk (some true) (some 5000))) [] (some 3)
          0).2.2
      ∧ some (CacheOptions.mk (some true) (some 5000)) ≠
        (none : Option CacheOptions)) :=
  ⟨⟨by decide,
    (claim_C8_amended "User" 1 none [] none 0 "x" none none).2.2
      (by decide)⟩,
   ⟨by decide,
    (claim_C8_amended "User" 1
      (some (CacheOptions.mk (some true) (some 5000))) [] (some 3) 0
      "User-1" (some 5000) (some true)).2.1 (by decide)⟩⟩

/-- C9: the claim quotes the messages as default connection not found and
unknown connection: name, both lower case. The code capitalizes both
messages, so resolving the unregistered default name yields Default
connection not found, not the quoted string, and resolving an
unregistered name ghost yields Unknown connection: ghost, not the quoted
string. -/
theorem claim_C9_counterexample :
    DataSourceStorage.getDataSource [] "default" =
      Except.error "Default connection not found"
    ∧ DataSourceStorage.getDataSource [] "default" ≠
      Except.error "default connection not found"
    ∧ DataSourceStorage.getDataSource [] "ghost" =
      Except.error "Unknown connection: ghost"
    ∧ DataSourceStorage.getDataSource [] "ghost" ≠
      Except.error "unknown connection: ghost" := by
  decide

/-- C9 (amended): resolving a connection name with no registered data
source fails with an UnknownConnection error whose message distinguishes
the reserved default name (Default connection not found) from any other
name (Unknown connection: name, with both messages capitalized), and a
registered name resolves to the stored handle. -/
theorem claim_C9_amended (s : DataSourceStore) (name : String) (ds : Nat)
    (habs : lookupKey s name = none) :
    DataSourceStorage.getDataSource s name =
      Except.error
        (if name = DEFAULT_DATASOURCE_NAME then
          "Default connection not found"
        else "Unknown connection: " ++ name)
    ∧ DataSourceStorage.getDataSource
        (DataSourceStorage.setDataSource s name ds) name = Except.ok ds := by
  constructor
  · simp [DataSourceStorage.getDataSource, habs, unknownConnectionMessage]
  · simp [DataSourceStorage.getDataSource, DataSourceStorage.setDataSource,
      lookupKey]

/-- C9 witness: the amended statement applied at the unregistered name
ghost over the empty registry, then registering handle 42 for it. -/
theorem claim_C9_witness :
    lookupKey ([] : DataSourceStore) "ghost" = none
    ∧ (DataSourceStorage.getDataSource [] "ghost" =
        Except.error
          (if "ghost" = DEFAULT_DATASOURCE_NAME then
            "Default connection not found"
          else "Unknown connection: " ++ "ghost")
      ∧ DataSourceStorage.getDataSource
          (DataSourceStorage.setDataSource [] "ghost" 42) "ghost" =
        Except.ok 42) :=
  ⟨by decide, claim_C9_amended [] "ghost" 42 (by decide)⟩
